import Mathlib

/-!
Formal model of the GenieSugar backend (backend/app.py).

The timeline store is modelled as a global list of glucose readings in
storage (insertion) order; SQLAlchemy queries without an `order_by` clause
return rows in that order.  Glucose values are rationals, timestamps are
integers (UTC epoch instants).  Fallible request handlers return explicit
result records carrying the HTTP status, and every operation additionally
returns the list of notification-dispatch attempts it performed.
-/

namespace GenieSugar

/-- One row of the `glucose_readings` table (app.py, class GlucoseReading). -/
structure Reading where
  user_id : Nat
  reading_value : Rat
  timestamp : Int
  is_synced : Bool
deriving DecidableEq, Repr

/-- The identity fields of a user that the glucose endpoints touch. -/
structure UserRec where
  email : String
  phone : Option String
deriving DecidableEq, Repr

/-- A notification-dispatch attempt, recording the channel, the target and
the boolean returned by the dispatcher (`send_email` / `send_sms`). -/
inductive Dispatch where
  | email (addr : String) (delivered : Bool)
  | sms (addr : String) (delivered : Bool)
deriving DecidableEq, Repr

/-- Environment of a dispatcher call: keys missing, provider replied with a
status code, or the client library raised. -/
inductive SendOutcome where
  | noConfig
  | apiStatus (code : Nat)
  | raised
deriving DecidableEq, Repr

/-- Return value of `send_email` (app.py lines 111-133): `False` when the
SendGrid key is missing or the client raises, otherwise status == 202.
All failures are swallowed into `false`; the function never propagates. -/
def send_email_result : SendOutcome → Bool
  | .noConfig => false
  | .apiStatus code => code == 202
  | .raised => false

/-- Return value of `send_sms` (app.py lines 135-151): `False` when Twilio
keys are missing or the client raises, otherwise `True`. -/
def send_sms_result : SendOutcome → Bool
  | .noConfig => false
  | .apiStatus _ => true
  | .raised => false

/-- Threshold classification of a glucose value, mirroring the
`if val < 70 ... elif val > 200 ... else` chain of app.py lines 494-504. -/
inductive AlertLevel where
  | lowAlert
  | highAlert
  | noAlert
deriving DecidableEq, Repr

/-- `classify v`: the alert level of a glucose value (app.py 494-504). -/
def classify (v : Rat) : AlertLevel :=
  if v < 70 then .lowAlert
  else if v > 200 then .highAlert
  else .noAlert

/-- The body of a POST /api/glucose request, after `require_json` and
`float(...)` parsing: the `reading_value` field is missing/empty, present
but not parseable as a number, or a number. -/
inductive GlucoseInput where
  | missing
  | nonNumeric (s : String)
  | numeric (v : Rat)
deriving DecidableEq, Repr

/-- Response of the add-reading endpoint: HTTP status, success flag, and
the assigned reading id when the insert succeeded. -/
structure AddResult where
  status : Nat
  success : Bool
  reading_id : Option Nat
deriving DecidableEq, Repr

/-- Full outcome of one call to the add-reading endpoint: the timeline
after the call, the HTTP response, and the dispatch attempts made. -/
structure AddOut where
  tl : List Reading
  result : AddResult
  dispatches : List Dispatch
deriving DecidableEq, Repr

/-- `add_glucose_reading` (app.py lines 471-510).  `require_json` rejects a
missing/empty `reading_value` with 400; a present but non-numeric value
makes `float(...)` raise inside the `try`, which the blanket
`except Exception` turns into a rollback and a 500 response, so nothing is
persisted.  A numeric value is appended as a manual (non-synced) reading,
committed, and then the threshold chain runs: on an alert an email is
always attempted and an SMS only when the user has a phone on file.  The
dispatcher return values are discarded by the handler. -/
def add_glucose_reading (tl : List Reading) (user : UserRec) (uid : Nat)
    (input : GlucoseInput) (now : Int) (emailEnv smsEnv : SendOutcome) : AddOut :=
  match input with
  | .missing => ⟨tl, ⟨400, false, none⟩, []⟩
  | .nonNumeric _ => ⟨tl, ⟨500, false, none⟩, []⟩
  | .numeric v =>
      let tl' := tl ++ [⟨uid, v, now, false⟩]
      let dispatches :=
        match classify v with
        | .noAlert => []
        | _ =>
            Dispatch.email user.email (send_email_result emailEnv) ::
              (match user.phone with
               | some p => [Dispatch.sms p (send_sms_result smsEnv)]
               | none => [])
      ⟨tl', ⟨201, true, some (tl.length + 1)⟩, dispatches⟩

/-- One sample of the Dexcom `/egvs` payload: an optional `systemTime`
(absent entries are skipped by the loop) and a value. -/
structure Sample where
  systemTime : Option Int
  value : Rat
deriving DecidableEq, Repr

/-- The provider response seen by `sync_dexcom_data`: HTTP status and the
`egvs` sample list. -/
structure ProviderResponse where
  status : Nat
  egvs : List Sample
deriving DecidableEq, Repr

/-- Result record of `sync_dexcom_data`: success flag and, on success, the
count of newly inserted readings. -/
structure SyncResult where
  success : Bool
  readings_added : Option Nat
deriving DecidableEq, Repr

/-- Full outcome of one sync call: the timeline after the call, the result
record, and the dispatch attempts made (the sync path contains no call to
`send_email` or `send_sms`). -/
structure SyncOut where
  tl : List Reading
  result : SyncResult
  dispatches : List Dispatch
deriving DecidableEq, Repr

/-- The dedup existence check of app.py lines 196-199:
`GlucoseReading.query.filter_by(user_id=..., timestamp=...).first()` is
non-null.  The session autoflushes, so rows added earlier in the same sync
call are visible to the check. -/
def sampleExists (tl : List Reading) (uid : Nat) (ts : Int) : Bool :=
  tl.any fun r => r.user_id == uid && r.timestamp == ts

/-- One iteration of the merge loop (app.py lines 189-209): skip a sample
with no `systemTime`; skip a sample whose (user, timestamp) already
exists; otherwise append a device-sourced reading and count it. -/
def syncStep (uid : Nat) (st : List Reading × Nat) (s : Sample) :
    List Reading × Nat :=
  match s.systemTime with
  | none => st
  | some ts =>
      if sampleExists st.1 uid ts then st
      else (st.1 ++ [⟨uid, s.value, ts, true⟩], st.2 + 1)

/-- The whole merge loop over the provider samples. -/
def mergeSamples (uid : Nat) (tl : List Reading) (samples : List Sample) :
    List Reading × Nat :=
  samples.foldl (syncStep uid) (tl, 0)

/-- `sync_dexcom_data` (app.py lines 153-215).  `connected` models
`user and user.dexcom_id`; `tokenPresent` models the `DEXCOM_ACCESS_TOKEN`
check.  A non-200 provider status aborts before any write.  On success the
merge loop runs and the commit publishes the appended rows. -/
def sync_dexcom_data (connected tokenPresent : Bool)
    (resp : ProviderResponse) (uid : Nat) (tl : List Reading) : SyncOut :=
  if !connected then ⟨tl, ⟨false, none⟩, []⟩
  else if !tokenPresent then ⟨tl, ⟨false, none⟩, []⟩
  else if resp.status ≠ 200 then ⟨tl, ⟨false, none⟩, []⟩
  else
    let m := mergeSamples uid tl resp.egvs
    ⟨m.1, ⟨true, some m.2⟩, []⟩

/-- Banker's rounding of a rational to the nearest integer, as Python's
built-in `round` performs on exact halves. -/
def roundHalfEven (x : Rat) : Int :=
  let f := Rat.floor x
  let r := x - f
  if r < 1/2 then f
  else if 1/2 < r then f + 1
  else if f % 2 = 0 then f else f + 1

/-- Python's `round(x, 1)`: round to one decimal place. -/
def pyRound1 (x : Rat) : Rat := (roundHalfEven (x * 10) : Rat) / 10

/-- The readings of one user inside the trailing window
(app.py lines 532-535): filter by user and `timestamp >= cutoff`, in
storage order (the query has no `order_by`). -/
def windowReadings (tl : List Reading) (uid : Nat) (cutoff : Int) :
    List Reading :=
  tl.filter fun r => r.user_id == uid && cutoff ≤ r.timestamp

/-- Arithmetic mean of the values of a reading list
(`sum(values) / len(values)`, app.py line 541). -/
def meanValues (rs : List Reading) : Rat :=
  ((rs.map Reading.reading_value).sum) / (rs.length : Rat)

/-- The presentation step `round(x, 1) if x else None` of app.py lines
549-550: `None` stays `None`, and a value that is falsy in Python — i.e.
exactly 0.0 — is also presented as `None`; any other value is rounded to
one decimal. -/
def present (x : Option Rat) : Option Rat :=
  match x with
  | none => none
  | some v => if v = 0 then none else some (pyRound1 v)

/-- One entry of the clinician patient listing (app.py lines 544-552). -/
structure PatientSummary where
  last_reading : Option Rat
  avg_glucose : Option Rat
  readings_count : Nat
deriving DecidableEq, Repr

/-- The per-patient summary computed by `get_doctor_patients`
(app.py lines 531-552): with no reading in the window every field is
null/0; otherwise `avg_glucose` is the mean of the window values and
`last_reading` is `readings[-1].reading_value` — the last row in storage
order of the unordered query — and both pass through the truthiness-gated
rounding of `present`. -/
def patientSummary (tl : List Reading) (uid : Nat) (cutoff : Int) :
    PatientSummary :=
  let readings := windowReadings tl uid cutoff
  match readings.getLast? with
  | none => ⟨none, none, 0⟩
  | some lastRow =>
      ⟨present (some lastRow.reading_value),
       present (some (meanValues readings)),
       readings.length⟩

/-- The reading the spec designates as most recent: the one of maximal
timestamp.  (Stated from the spec's words, for comparison with the
storage-order behaviour of the code.) -/
def maxTsReading (rs : List Reading) : Option Reading :=
  rs.foldl
    (fun acc r =>
      match acc with
      | none => some r
      | some m => if m.timestamp < r.timestamp then some r else some m)
    none

/-- Modelled from the spec: `last_reading` "equals the value with the
maximum timestamp".  Used only to compare the specified behaviour with
the implemented one. -/
def specLastByMaxTimestamp (rs : List Reading) : Option Rat :=
  (maxTsReading rs).map Reading.reading_value

end GenieSugar

namespace GenieSugar

theorem sampleExists_append (tl ext : List Reading) (uid : Nat) (ts : Int)
    (h : sampleExists tl uid ts = true) :
    sampleExists (tl ++ ext) uid ts = true := by
  simp only [sampleExists, List.any_append, Bool.or_eq_true]
  exact Or.inl h

theorem syncStep_extend (uid : Nat) (st : List Reading × Nat) (s : Sample) :
    ∃ ext, (syncStep uid st s).1 = st.1 ++ ext := by
  unfold syncStep
  rcases s.systemTime with _ | ts
  · exact ⟨[], by simp⟩
  · by_cases h : sampleExists st.1 uid ts = true
    · exact ⟨[], by simp [h]⟩
    · exact ⟨[⟨uid, s.value, ts, true⟩], by simp [h]⟩

theorem foldl_syncStep_extend (uid : Nat) (samples : List Sample) :
    ∀ st : List Reading × Nat,
      ∃ ext, (samples.foldl (syncStep uid) st).1 = st.1 ++ ext := by
  induction samples with
  | nil => exact fun st => ⟨[], by simp⟩
  | cons a as ih =>
      intro st
      obtain ⟨e1, h1⟩ := syncStep_extend uid st a
      obtain ⟨e2, h2⟩ := ih (syncStep uid st a)
      exact ⟨e1 ++ e2, by rw [List.foldl_cons, h2, h1, List.append_assoc]⟩

theorem syncStep_exists_self (uid : Nat) (st : List Reading × Nat) (s : Sample)
    (ts : Int) (h : s.systemTime = some ts) :
    sampleExists (syncStep uid st s).1 uid ts = true := by
  unfold syncStep
  rw [h]
  by_cases he : sampleExists st.1 uid ts = true
  · simp [he]
  · simp only [he, if_false, Bool.false_eq_true]
    simp [sampleExists, List.any_append]

theorem foldl_syncStep_exists (uid : Nat) (ts : Int) (samples : List Sample) :
    ∀ st : List Reading × Nat, ∀ s ∈ samples, s.systemTime = some ts →
      sampleExists ((samples.foldl (syncStep uid) st)).1 uid ts = true := by
  induction samples with
  | nil => intro st s hs; exact absurd hs (List.not_mem_nil s)
  | cons a as ih =>
      intro st s hs hts
      rcases List.mem_cons.mp hs with rfl | hmem
      · obtain ⟨ext, hext⟩ := foldl_syncStep_extend uid as (syncStep uid st s)
        rw [List.foldl_cons, hext]
        exact sampleExists_append _ _ _ _ (syncStep_exists_self uid st s ts hts)
      · rw [List.foldl_cons]
        exact ih (syncStep uid st a) s hmem hts

theorem foldl_syncStep_nop (uid : Nat) (samples : List Sample) :
    ∀ st : List Reading × Nat,
      (∀ s ∈ samples, ∀ ts, s.systemTime = some ts →
        sampleExists st.1 uid ts = true) →
      samples.foldl (syncStep uid) st = st := by
  induction samples with
  | nil => intro st _; rfl
  | cons a as ih =>
      intro st h
      have hstep : syncStep uid st a = st := by
        unfold syncStep
        rcases hts : a.systemTime with _ | ts
        · rfl
        · simp [h a (List.mem_cons_self a as) ts hts]
      rw [List.foldl_cons, hstep]
      exact ih st fun s hs => h s (List.mem_cons_of_mem a hs)

theorem mergeSamples_exists (uid : Nat) (tl : List Reading)
    (samples : List Sample) (s : Sample) (ts : Int) (hs : s ∈ samples)
    (hts : s.systemTime = some ts) :
    sampleExists (mergeSamples uid tl samples).1 uid ts = true :=
  foldl_syncStep_exists uid ts samples (tl, 0) s hs hts

/-- C2: running `sync_dexcom_data` a second time against the identical
provider window inserts nothing: every sample's (user, timestamp) pair is
already present after the first call, so each is skipped without error,
the second call reports `readings_added = 0`, and the timeline is
unchanged by the second call. -/
theorem sync_idempotent (resp : ProviderResponse) (uid : Nat)
    (tl : List Reading) (h : resp.status = 200) :
    (sync_dexcom_data true true resp uid
        (sync_dexcom_data true true resp uid tl).tl).result = ⟨true, some 0⟩ ∧
    (sync_dexcom_data true true resp uid
        (sync_dexcom_data true true resp uid tl).tl).tl =
      (sync_dexcom_data true true resp uid tl).tl := by
  have hmerge :
      mergeSamples uid (mergeSamples uid tl resp.egvs).1 resp.egvs =
        ((mergeSamples uid tl resp.egvs).1, 0) :=
    foldl_syncStep_nop uid resp.egvs ((mergeSamples uid tl resp.egvs).1, 0)
      fun s hs ts hts => mergeSamples_exists uid tl resp.egvs s ts hs hts
  constructor
  · simp [sync_dexcom_data, h, hmerge]
  · simp [sync_dexcom_data, h, hmerge]

/-- C2 witness: a concrete two-sample window synced twice from an empty
timeline. -/
theorem sync_idempotent_witness :
    (⟨200, [⟨some 5, 300⟩, ⟨some 7, 60⟩]⟩ : ProviderResponse).status = 200 ∧
    ((sync_dexcom_data true true ⟨200, [⟨some 5, 300⟩, ⟨some 7, 60⟩]⟩ 1
        (sync_dexcom_data true true ⟨200, [⟨some 5, 300⟩, ⟨some 7, 60⟩]⟩ 1
          []).tl).result = ⟨true, some 0⟩ ∧
      (sync_dexcom_data true true ⟨200, [⟨some 5, 300⟩, ⟨some 7, 60⟩]⟩ 1
          (sync_dexcom_data true true ⟨200, [⟨some 5, 300⟩, ⟨some 7, 60⟩]⟩ 1
            []).tl).tl =
        (sync_dexcom_data true true ⟨200, [⟨some 5, 300⟩, ⟨some 7, 60⟩]⟩ 1
          []).tl) :=
  ⟨rfl, sync_idempotent ⟨200, [⟨some 5, 300⟩, ⟨some 7, 60⟩]⟩ 1 [] rfl⟩

/-- C7: when the provider call returns a non-success status, sync aborts
with a failure result and performs no writes: the returned timeline is the
input timeline. -/
theorem sync_provider_error_no_writes (resp : ProviderResponse) (uid : Nat)
    (tl : List Reading) (h : resp.status ≠ 200) :
    sync_dexcom_data true true resp uid tl = ⟨tl, ⟨false, none⟩, []⟩ := by
  simp [sync_dexcom_data, h]

/-- C7 witness: a concrete 500 response leaves a one-row timeline intact. -/
theorem sync_provider_error_no_writes_witness :
    (⟨500, [⟨some 5, 300⟩]⟩ : ProviderResponse).status ≠ 200 ∧
    sync_dexcom_data true true ⟨500, [⟨some 5, 300⟩]⟩ 1
        [⟨1, 95, 2, false⟩] =
      ⟨[⟨1, 95, 2, false⟩], ⟨false, none⟩, []⟩ :=
  ⟨by decide,
   sync_provider_error_no_writes ⟨500, [⟨some 5, 300⟩]⟩ 1
     [⟨1, 95, 2, false⟩] (by decide)⟩

theorem foldl_syncStep_filter (uid : Nat) (samples : List Sample) :
    ∀ st : List Reading × Nat,
      ((samples.foldl (syncStep uid) st).1).filter (fun r => !r.is_synced) =
        st.1.filter fun r => !r.is_synced := by
  induction samples with
  | nil => intro st; rfl
  | cons a as ih =>
      intro st
      rw [List.foldl_cons, ih (syncStep uid st a)]
      unfold syncStep
      rcases a.systemTime with _ | ts
      · rfl
      · by_cases he : sampleExists st.1 uid ts = true
        · simp [he]
        · simp [he, List.filter_append]

/-- C9: a sync call performs no notification dispatch whatsoever —
regardless of the values fetched (below 70 or above 200 included) — and
every reading it inserts carries `is_synced = true`, so the non-synced
rows of the timeline are exactly those that were already there. -/
theorem sync_no_alerts (connected tokenPresent : Bool)
    (resp : ProviderResponse) (uid : Nat) (tl : List Reading) :
    (sync_dexcom_data connected tokenPresent resp uid tl).dispatches = [] ∧
    ((sync_dexcom_data connected tokenPresent resp uid tl).tl).filter
        (fun r => !r.is_synced) = tl.filter (fun r => !r.is_synced) := by
  unfold sync_dexcom_data
  cases connected with
  | false => simp
  | true =>
      cases tokenPresent with
      | false => simp
      | true =>
          by_cases h : resp.status = 200
          · simp [h, mergeSamples, foldl_syncStep_filter]
          · simp [h]


/-- C5: a patient with zero readings in the trailing window is summarised
with `avg_glucose = null`, `last_reading = null` and `readings_count = 0`. -/
theorem summary_empty_window (tl : List Reading) (uid : Nat) (cutoff : Int)
    (h : windowReadings tl uid cutoff = []) :
    patientSummary tl uid cutoff = ⟨none, none, 0⟩ := by
  simp [patientSummary, h]

/-- C5 witness: an empty timeline, and a timeline whose only reading lies
outside the window. -/
theorem summary_empty_window_witness :
    windowReadings [(⟨1, 120, -50, false⟩ : Reading)] 1 0 = [] ∧
    patientSummary [(⟨1, 120, -50, false⟩ : Reading)] 1 0 = ⟨none, none, 0⟩ :=
  ⟨by decide, summary_empty_window [⟨1, 120, -50, false⟩] 1 0 (by decide)⟩

/-- C10: the presentation step tests presence by Python truthiness, so a
patient whose window is non-empty still gets `avg_glucose = null` when the
mean is exactly 0.0 and `last_reading = null` when the storage-order last
reading's value is exactly 0.0, while `readings_count` stays positive. -/
theorem summary_zero_truthiness (tl : List Reading) (uid : Nat)
    (cutoff : Int) (r : Reading)
    (h : (windowReadings tl uid cutoff).getLast? = some r) :
    0 < (patientSummary tl uid cutoff).readings_count ∧
    (meanValues (windowReadings tl uid cutoff) = 0 →
      (patientSummary tl uid cutoff).avg_glucose = none) ∧
    (r.reading_value = 0 →
      (patientSummary tl uid cutoff).last_reading = none) := by
  have hne : windowReadings tl uid cutoff ≠ [] := by
    intro h0
    rw [h0] at h
    cases h
  refine ⟨?_, ?_, ?_⟩
  · simp only [patientSummary, h]
    exact List.length_pos.mpr hne
  · intro hm
    simp [patientSummary, h, present, hm]
  · intro hv
    simp [patientSummary, h, present, hv]

/-- C10 witness: one in-window reading of value 0.0 gives count 1 and both
summary fields null. -/
theorem summary_zero_truthiness_witness :
    (windowReadings [(⟨1, 0, 1, false⟩ : Reading)] 1 0).getLast? =
      some ⟨1, 0, 1, false⟩ ∧
    (0 < (patientSummary [(⟨1, 0, 1, false⟩ : Reading)] 1 0).readings_count ∧
      (meanValues (windowReadings [(⟨1, 0, 1, false⟩ : Reading)] 1 0) = 0 →
        (patientSummary [(⟨1, 0, 1, false⟩ : Reading)] 1 0).avg_glucose =
          none) ∧
      ((⟨1, 0, 1, false⟩ : Reading).reading_value = 0 →
        (patientSummary [(⟨1, 0, 1, false⟩ : Reading)] 1 0).last_reading =
          none)) :=
  ⟨by decide,
   summary_zero_truthiness [⟨1, 0, 1, false⟩] 1 0 ⟨1, 0, 1, false⟩ (by decide)⟩

/-- C1 counterexample: with two in-window readings stored out of timestamp
order — value 100 at time 2 inserted before value 50 at time 1 — the
reading of maximal timestamp has value 100, yet the listing reports
`last_reading = 50`, the last row in storage order. -/
theorem last_reading_not_max_timestamp :
    specLastByMaxTimestamp (windowReadings
        [(⟨1, 100, 2, false⟩ : Reading), ⟨1, 50, 1, false⟩] 1 0) =
      some 100 ∧
    (patientSummary [(⟨1, 100, 2, false⟩ : Reading), ⟨1, 50, 1, false⟩]
        1 0).last_reading = some 50 ∧
    (50 : Rat) ≠ 100 := by
  refine ⟨by decide, ?_, by norm_num⟩
  norm_num [patientSummary, windowReadings, present, pyRound1, roundHalfEven,
    Rat.floor]

/-- C1 (amended): for every patient with at least one in-window reading,
`last_reading` is determined by storage order, not by maximal timestamp:
it is the (rounded) value of the last in-window reading in table order
whenever that value is non-zero; a zero value is presented as null by the
truthiness gate of `present`. -/
theorem last_reading_is_storage_order (tl : List Reading) (uid : Nat)
    (cutoff : Int) (r : Reading)
    (h : (windowReadings tl uid cutoff).getLast? = some r)
    (hv : r.reading_value ≠ 0) :
    (patientSummary tl uid cutoff).last_reading =
      some (pyRound1 r.reading_value) := by
  simp [patientSummary, h, present, hv]

/-- C1 amended witness: an ordinary timeline in which patient 1's last
in-window reading (value 50, the older timestamp) is not the globally
last table row — another patient's reading follows it — and is still the
one reported as `last_reading`. -/
theorem last_reading_is_storage_order_witness :
    (windowReadings [(⟨1, 100, 2, false⟩ : Reading), ⟨1, 50, 1, false⟩,
        ⟨2, 80, 5, false⟩] 1 0).getLast? = some ⟨1, 50, 1, false⟩ ∧
    (⟨1, 50, 1, false⟩ : Reading).reading_value ≠ 0 ∧
    (patientSummary [(⟨1, 100, 2, false⟩ : Reading), ⟨1, 50, 1, false⟩,
        ⟨2, 80, 5, false⟩] 1 0).last_reading =
      some (pyRound1 (⟨1, 50, 1, false⟩ : Reading).reading_value) :=
  ⟨by decide, by decide,
   last_reading_is_storage_order
     [⟨1, 100, 2, false⟩, ⟨1, 50, 1, false⟩, ⟨2, 80, 5, false⟩] 1 0
     ⟨1, 50, 1, false⟩ (by decide) (by decide)⟩

/-- C6 counterexample: a patient whose single in-window reading has value
0.0 has `readings_count = 1`, and the mean of the window values rounds to
0.0, yet `avg_glucose` is reported as null rather than that rounded mean,
refuting the claim for this patient. -/
theorem avg_glucose_not_mean_at_zero :
    (patientSummary [(⟨1, 0, 1, false⟩ : Reading)] 1 0).readings_count = 1 ∧
    (patientSummary [(⟨1, 0, 1, false⟩ : Reading)] 1 0).avg_glucose ≠
      some (pyRound1 (meanValues
        (windowReadings [(⟨1, 0, 1, false⟩ : Reading)] 1 0))) := by
  refine ⟨by decide, ?_⟩
  norm_num [patientSummary, windowReadings, present, meanValues]
  simp

/-- C6 (amended): for every patient whose window is non-empty and whose
window mean is non-zero, the presented `avg_glucose` equals the arithmetic
mean of the window values rounded to one decimal place; the stored
readings themselves are untouched (the summary reads the timeline without
modifying it). -/
theorem avg_glucose_is_rounded_mean (tl : List Reading) (uid : Nat)
    (cutoff : Int) (r : Reading)
    (h : (windowReadings tl uid cutoff).getLast? = some r)
    (hm : meanValues (windowReadings tl uid cutoff) ≠ 0) :
    (patientSummary tl uid cutoff).avg_glucose =
      some (pyRound1 (meanValues (windowReadings tl uid cutoff))) := by
  simp [patientSummary, h, present, hm]

/-- C6 witness: the spec's own instance — values [100, 150, 120] in the
window — where the rounded mean is 123.3. -/
theorem avg_glucose_is_rounded_mean_witness :
    (windowReadings [(⟨1, 100, 1, false⟩ : Reading), ⟨1, 150, 2, false⟩,
        ⟨1, 120, 3, false⟩] 1 0).getLast? = some ⟨1, 120, 3, false⟩ ∧
    meanValues (windowReadings [(⟨1, 100, 1, false⟩ : Reading),
        ⟨1, 150, 2, false⟩, ⟨1, 120, 3, false⟩] 1 0) ≠ 0 ∧
    (patientSummary [(⟨1, 100, 1, false⟩ : Reading), ⟨1, 150, 2, false⟩,
        ⟨1, 120, 3, false⟩] 1 0).avg_glucose =
      some (pyRound1 (meanValues (windowReadings
        [(⟨1, 100, 1, false⟩ : Reading), ⟨1, 150, 2, false⟩,
          ⟨1, 120, 3, false⟩] 1 0))) ∧
    pyRound1 (meanValues (windowReadings
        [(⟨1, 100, 1, false⟩ : Reading), ⟨1, 150, 2, false⟩,
          ⟨1, 120, 3, false⟩] 1 0)) = 1233 / 10 :=
  ⟨by decide, by norm_num [meanValues, windowReadings],
   avg_glucose_is_rounded_mean
     [⟨1, 100, 1, false⟩, ⟨1, 150, 2, false⟩, ⟨1, 120, 3, false⟩] 1 0
     ⟨1, 120, 3, false⟩ (by decide) (by norm_num [meanValues, windowReadings]),
   by norm_num [pyRound1, meanValues, windowReadings, roundHalfEven, Rat.floor]⟩


/-- C3: classification is a pure function of the value with the exact
thresholds of the code — `lowAlert` iff v < 70, `highAlert` iff v > 200,
`noAlert` iff 70 ≤ v ≤ 200 (both boundaries included) — and the manual
entry path dispatches a notification exactly when the classification is
not `noAlert`. -/
theorem alert_classification (v : Rat) (tl : List Reading) (user : UserRec)
    (uid : Nat) (now : Int) (emailEnv smsEnv : SendOutcome) :
    (classify v = .lowAlert ↔ v < 70) ∧
    (classify v = .highAlert ↔ 200 < v) ∧
    (classify v = .noAlert ↔ 70 ≤ v ∧ v ≤ 200) ∧
    ((add_glucose_reading tl user uid (.numeric v) now emailEnv
        smsEnv).dispatches = [] ↔ classify v = .noAlert) := by
  refine ⟨?_, ?_, ?_, ?_⟩
  · unfold classify
    split_ifs with h1 h2 <;> simp_all
  · unfold classify
    split_ifs with h1 h2 <;> simp_all
    linarith
  · unfold classify
    split_ifs with h1 h2 <;> simp_all
  · rcases hcl : classify v with _ | _ | _ <;>
      simp [add_glucose_reading, hcl]

/-- C4 counterexample: a present but non-numeric `reading_value` is
rejected with HTTP status 500, not the 400 the claim states, though
indeed nothing is persisted. -/
theorem non_numeric_value_not_400 :
    (add_glucose_reading [] ⟨"p@x.io", none⟩ 1 (.nonNumeric "abc") 0
        .noConfig .noConfig).result.status = 500 ∧
    ¬((add_glucose_reading [] ⟨"p@x.io", none⟩ 1 (.nonNumeric "abc") 0
        .noConfig .noConfig).result.status = 400) ∧
    (add_glucose_reading [] ⟨"p@x.io", none⟩ 1 (.nonNumeric "abc") 0
        .noConfig .noConfig).tl = [] :=
  ⟨rfl, by decide, rfl⟩

/-- C4 (amended): a reading-submission request whose glucose value is
present but non-numeric fails — no reading is persisted and no
notification is attempted — but the failure is reported as a 500
internal error (the parse exception falls into the blanket handler), not
as a 400 bad-input error. -/
theorem non_numeric_value_rejected (tl : List Reading) (user : UserRec)
    (uid : Nat) (s : String) (now : Int) (emailEnv smsEnv : SendOutcome) :
    add_glucose_reading tl user uid (.nonNumeric s) now emailEnv smsEnv =
      ⟨tl, ⟨500, false, none⟩, []⟩ := rfl

/-- C8: the persisted timeline and the HTTP response of a successful
manual submission are identical under every dispatcher environment —
unconfigured, failing, timing out (raising) or succeeding — and the
response is always 201/success carrying the assigned id, with the new
reading appended. -/
theorem write_alert_decoupled (tl : List Reading) (user : UserRec)
    (uid : Nat) (v : Rat) (now : Int) (e1 s1 e2 s2 : SendOutcome) :
    (add_glucose_reading tl user uid (.numeric v) now e1 s1).tl =
      (add_glucose_reading tl user uid (.numeric v) now e2 s2).tl ∧
    (add_glucose_reading tl user uid (.numeric v) now e1 s1).result =
      (add_glucose_reading tl user uid (.numeric v) now e2 s2).result ∧
    (add_glucose_reading tl user uid (.numeric v) now e1 s1).result =
      ⟨201, true, some (tl.length + 1)⟩ ∧
    (add_glucose_reading tl user uid (.numeric v) now e1 s1).tl =
      tl ++ [⟨uid, v, now, false⟩] :=
  ⟨rfl, rfl, rfl, rfl⟩

end GenieSugar
